import Mathlib

/-!
# Verification of the Nearby Presence engine (google/nearby, Rust sources)

Shallow embedding of the fused presence engine and the proximity
classification pipeline, translated from the Rust sources:

* `src/presence/fpp/fpp/src/fspl_converter.rs`
* `src/presence/fpp/fpp/src/fused_presence_utils.rs`
* `src/presence/fpp/fpp/src/presence_detector.rs`
* `src/presence/fpp/src/fused_presence_utils.rs` together with
  `src/presence/fpp/fpp/src/device_proximity_data.rs`,
  `src/presence/fpp/fpp/src/proximity_estimator.rs`,
  `src/presence/fpp/fpp/src/proximity_state_detector.rs`
* `src/rust/presence/engine/src/client_provider.rs`,
  `src/rust/presence/engine/src/fused_engine.rs`
* `src/presence/fpp/fpp_c_ffi/src/lib.rs`,
  `src/presence/fpp/fpp_c_ffi/src/handle_map.rs`

Modelling conventions:

* Rust `u64`/`u128` millisecond timestamps become `Nat`; where the source
  performs an unsigned subtraction (which is a program error on underflow)
  we use `checkedSub`, returning `none` exactly on underflow.
* Rust `f64` distance/threshold arithmetic is modelled over `ℚ`.  Every
  concrete input used in a theorem below is chosen far from any floating
  point rounding boundary, so the `ℚ` value of each comparison agrees with
  the `f64` value computed by the Rust code.
* `Instant::now()` / `SystemTime::now()` readings are passed as explicit
  `Nat` parameters.  The expression `Instant::now().elapsed()` (and the
  analogous `SystemTime::now().elapsed()`) measures the gap between two
  clock reads in the *same* expression; at millisecond granularity that
  reading is `0` in any real execution, and theorems that depend on it say
  so explicitly.
* Rust `HashSet`/`HashMap` values are modelled as association lists whose
  membership/update operations are keyed by the same equality the Rust
  code uses (`PartialEq`/`Hash` impls).
-/

/-- Rust unsigned subtraction `a - b` on `u64`/`u128`: underflow is a
program error (it panics in builds with overflow checks), modelled as
`none`. -/
def checkedSub (a b : Nat) : Option Nat :=
  if b ≤ a then some (a - b) else none

namespace Fpp

/-! ## `fused_presence_utils.rs` (crate `fpp`, module tree of `fpp/fpp/src/lib.rs`)

The sibling file `src/presence/fpp/src/fused_presence_utils.rs` declares the
same three enums verbatim; the Lean enums below therefore serve both the
live crate (`presence_detector.rs`) and the per-device classifier files
(`device_proximity_data.rs` etc.), which are embedded in namespace
`FppLegacy`. -/

/-- `ProximityState` — proximity zone enum, ordered by increasing distance. -/
inductive ProximityState where
  | Unknown
  | Tap
  | Reach
  | ShortRange
  | LongRange
  | Far
  deriving DecidableEq, Repr

/-- `MeasurementConfidence`. -/
inductive MeasurementConfidence where
  | Low
  | Medium
  | High
  | Unknown
  deriving DecidableEq, Repr

/-- `PresenceDataSource`. -/
inductive PresenceDataSource where
  | Ble
  | Uwb
  | Nan
  | Unknown
  deriving DecidableEq, Repr

/-- `MaybeTxPower` — optional tx power. -/
inductive MaybeTxPower where
  | Valid (value : Int)
  | Invalid
  deriving DecidableEq, Repr

/-- `BleScanResult` (fields in the `fpp` crate: `device_id: u64`,
`tx_power: MaybeTxPower`, `rssi: i32`, `elapsed_real_time_millis: u64`). -/
structure BleScanResult where
  device_id : Nat
  tx_power : MaybeTxPower
  rssi : Int
  elapsed_real_time_millis : Nat
  deriving DecidableEq, Repr

/-- `ProximityEstimate` (the `fpp` crate version, `distance_meters: f64`
modelled over `ℚ`). -/
structure ProximityEstimate where
  device_id : Nat
  distance_meters : ℚ
  distance_confidence : MeasurementConfidence
  elapsed_real_time_millis : Nat
  proximity_state : ProximityState
  source : PresenceDataSource
  deriving DecidableEq, Repr

def AMBIGUITY_METERS : ℚ := 0.06

def DEFAULT_TAP_DISTANCE_THRESHOLD_METERS : ℚ := AMBIGUITY_METERS + 0.02

def DEFAULT_REACH_DISTANCE_THRESHOLD_METERS : ℚ := AMBIGUITY_METERS + 0.5

def DEFAULT_SHORT_RANGE_DISTANCE_THRESHOLD_METERS : ℚ := AMBIGUITY_METERS + 1.2

def DEFAULT_LONG_RANGE_DISTANCE_THRESHOLD_METERS : ℚ := AMBIGUITY_METERS + 3.0

def DEFAULT_CONSECUTIVE_SCANS_REQUIRED : Nat := 2

/-! ## `fspl_converter.rs` -/

def ADVERTISE_TX_POWER_HIGH_DB : Int := 1

def FSPL_AT_1_METER_DB : Int := 40

def MEASURED_POWER_AT_1_METER_DB_AT_HIGH_TX_POWER : Int := -60

/-- `f64::powi` for a nonnegative exponent: repeated multiplication. -/
def powiNat (base : ℚ) : Nat → ℚ
  | 0 => 1
  | n + 1 => powiNat base n * base

/-- `f64::powi`: integer power of an `f64` base; a negative exponent takes
the reciprocal of the positive power.  Modelled over `ℚ` (exact); every
concrete use below lands on a value where the `f64` computation and its
comparisons agree with the exact one. -/
def powi (base : ℚ) (n : Int) : ℚ :=
  if 0 ≤ n then powiNat base n.toNat else (powiNat base (-n).toNat)⁻¹

/-- `ble_fspl_to_meters`: `base.powi((fspl - FSPL_AT_1_METER_DB) / 20)` where
`/` is Rust `i32` division (truncation toward zero, `Int.tdiv` in Lean). -/
def ble_fspl_to_meters (fspl : Int) : ℚ :=
  let base : ℚ := 10
  powi base (Int.tdiv (fspl - FSPL_AT_1_METER_DB) 20)

/-- `compute_distance_meters`. -/
def compute_distance_meters (tx_power_at_0_meters rssi : Int) : ℚ :=
  let fspl := tx_power_at_0_meters - rssi
  ble_fspl_to_meters fspl

/-- `compute_distance_meters_at_high_tx_power`. -/
def compute_distance_meters_at_high_tx_power (rssi : Int) : ℚ :=
  let nominal_tx_power := ADVERTISE_TX_POWER_HIGH_DB
  let antenna_gain :=
    (nominal_tx_power - FSPL_AT_1_METER_DB) - MEASURED_POWER_AT_1_METER_DB_AT_HIGH_TX_POWER
  let tx_power_at_0_meters := nominal_tx_power - antenna_gain
  compute_distance_meters tx_power_at_0_meters rssi

/-! ## `presence_detector.rs` (crate `fpp`)

Timestamps come from three kinds of clock reads inside
`on_ble_scan_result`; they are passed as explicit parameters:

* `nowSinceStart` models `Instant::now().duration_since(self.start_time)`
  in milliseconds — the age of the detector at the time of the call.  It is
  read twice in the source (once for the estimate, once inside
  `RangingUpdateTime::update`); both reads happen within the same call, so
  they are modelled as one value.
* `isExpiredReading` models the value of
  `Instant::now().elapsed().as_millis()` computed inside
  `RangingUpdateTime::is_expired`.  That expression measures the duration
  between two adjacent `Instant::now()` calls in a single statement, so in
  any real execution its value is `0` ms.  It is kept as a parameter so
  that theorems can quantify over it.
-/

def MAX_RSSI_FILTER_VALUE : Int := 10

def DEFAULT_ESTIMATED_DISTANCE_DATA_TTL_MILLIS : Nat := 4000

/-- The `fpp`-crate `get_proximity_state_from_threshold` (fixed default
thresholds). -/
def get_proximity_state_from_threshold (distance_meters : ℚ) : ProximityState :=
  if distance_meters ≤ DEFAULT_TAP_DISTANCE_THRESHOLD_METERS then ProximityState.Tap
  else if distance_meters ≤ DEFAULT_REACH_DISTANCE_THRESHOLD_METERS then ProximityState.Reach
  else if distance_meters ≤ DEFAULT_SHORT_RANGE_DISTANCE_THRESHOLD_METERS then
    ProximityState.ShortRange
  else if distance_meters ≤ DEFAULT_LONG_RANGE_DISTANCE_THRESHOLD_METERS then
    ProximityState.LongRange
  else ProximityState.Far

/-- Association-list model of `HashMap<u64, V>`: lookup. -/
def mapFind {V : Type} (m : List (Nat × V)) (k : Nat) : Option V :=
  match m with
  | [] => none
  | (k', v) :: rest => if k' = k then some v else mapFind rest k

/-- Association-list model of `HashMap<u64, V>`: `insert` replaces any
existing entry for the key. -/
def mapInsert {V : Type} (m : List (Nat × V)) (k : Nat) (v : V) : List (Nat × V) :=
  (k, v) :: m.filter (fun p => ¬ p.1 = k)

/-- Association-list model of `HashMap<u64, V>`: `remove`. -/
def mapRemove {V : Type} (m : List (Nat × V)) (k : Nat) : List (Nat × V) :=
  m.filter (fun p => ¬ p.1 = k)

/-- `PresenceDetector` state: `last_range_update_time: RangingUpdateTime`
(a `u128` of milliseconds), the per-device map of best estimates, and the
single `transition_history` deque (front = most recent entry).  The
`start_time: Instant` field is represented implicitly by expressing all
clock reads relative to it. -/
structure PresenceDetector where
  last_range_update_time : Nat
  best_proximity_estimate_per_device : List (Nat × ProximityEstimate)
  transition_history : List ProximityState
  deriving DecidableEq, Repr

/-- `PresenceDetector::new()`. -/
def PresenceDetector.new : PresenceDetector :=
  { last_range_update_time := 0
    best_proximity_estimate_per_device := []
    transition_history := [] }

/-- `RangingUpdateTime::is_expired`:
`Instant::now().elapsed().as_millis() - self.0 > TTL`, a `u128`
subtraction.  Returns `none` when the subtraction underflows (a program
error in Rust). -/
def RangingUpdateTime.is_expired (isExpiredReading stored : Nat) : Option Bool :=
  match checkedSub isExpiredReading stored with
  | none => none
  | some d => some (DEFAULT_ESTIMATED_DISTANCE_DATA_TTL_MILLIS < d)

/-- `PresenceDetector::on_ble_scan_result`.  Returns `none` when the call
is a program error (the `u128` underflow inside `is_expired`), otherwise
`some` of the returned `Option<ProximityEstimate>` and the new state. -/
def PresenceDetector.on_ble_scan_result (st : PresenceDetector) (ble_scan_result : BleScanResult)
    (isExpiredReading nowSinceStart : Nat) :
    Option (Option ProximityEstimate × PresenceDetector) :=
  let device_id := ble_scan_result.device_id
  if MAX_RSSI_FILTER_VALUE < ble_scan_result.rssi then
    some (mapFind st.best_proximity_estimate_per_device device_id, st)
  else
    match RangingUpdateTime.is_expired isExpiredReading st.last_range_update_time with
    | none => none
    | some expired =>
      let history0 := if expired then [] else st.transition_history
      let tx_power : Int :=
        match ble_scan_result.tx_power with
        | MaybeTxPower.Valid some_tx_power => some_tx_power
        | MaybeTxPower.Invalid => 0
      let rssi := ble_scan_result.rssi + tx_power
      let distance_meters := compute_distance_meters_at_high_tx_power rssi
      let new_proximity_estimate : ProximityEstimate :=
        { device_id
          distance_confidence := MeasurementConfidence.Low
          distance_meters
          proximity_state := get_proximity_state_from_threshold distance_meters
          elapsed_real_time_millis := nowSinceStart
          source := PresenceDataSource.Ble }
      let history :=
        (new_proximity_estimate.proximity_state :: history0).take
          DEFAULT_CONSECUTIVE_SCANS_REQUIRED
      if history.dedup.length = 1 ∧ history.length = DEFAULT_CONSECUTIVE_SCANS_REQUIRED then
        let best :=
          mapInsert st.best_proximity_estimate_per_device device_id new_proximity_estimate
        some (mapFind best device_id,
          { last_range_update_time := nowSinceStart
            best_proximity_estimate_per_device := best
            transition_history := history })
      else
        some (mapFind st.best_proximity_estimate_per_device device_id,
          { st with transition_history := history })

/-- `PresenceDetector::get_proximity_estimate` — a plain map lookup; the
source contains no TTL or staleness check here. -/
def PresenceDetector.get_proximity_estimate (st : PresenceDetector) (device_id : Nat) :
    Option ProximityEstimate :=
  mapFind st.best_proximity_estimate_per_device device_id

/-- Runs `on_ble_scan_result` over a list of calls, each given as
`(scan result, isExpiredReading, nowSinceStart)`.  Stops with `none` as
soon as one call is a program error. -/
def PresenceDetector.runScans (st : PresenceDetector)
    (calls : List (BleScanResult × Nat × Nat)) : Option PresenceDetector :=
  match calls with
  | [] => some st
  | (scan, e, now) :: rest =>
    match st.on_ble_scan_result scan e now with
    | none => none
    | some (_, st') => st'.runScans rest

end Fpp

-- Rust `i32` division truncates toward zero, as does `Int.tdiv`.
example : Int.tdiv (-19) 20 = 0 := by decide

example : Int.tdiv (-20) 20 = -1 := by decide

-- The three fixed reference points asserted by `fspl_converter_test.rs`.
example : Fpp.compute_distance_meters_at_high_tx_power (-40) = 1 / 10 := by
  norm_num [Fpp.compute_distance_meters_at_high_tx_power, Fpp.compute_distance_meters,
    Fpp.ble_fspl_to_meters, Fpp.powi, Fpp.powiNat, Fpp.ADVERTISE_TX_POWER_HIGH_DB,
    Fpp.FSPL_AT_1_METER_DB, Fpp.MEASURED_POWER_AT_1_METER_DB_AT_HIGH_TX_POWER]

example : Fpp.compute_distance_meters_at_high_tx_power (-60) = 1 := by
  norm_num [Fpp.compute_distance_meters_at_high_tx_power, Fpp.compute_distance_meters,
    Fpp.ble_fspl_to_meters, Fpp.powi, Fpp.powiNat, Fpp.ADVERTISE_TX_POWER_HIGH_DB,
    Fpp.FSPL_AT_1_METER_DB, Fpp.MEASURED_POWER_AT_1_METER_DB_AT_HIGH_TX_POWER]

example : Fpp.compute_distance_meters_at_high_tx_power (-80) = 10 := by
  norm_num [Fpp.compute_distance_meters_at_high_tx_power, Fpp.compute_distance_meters,
    Fpp.ble_fspl_to_meters, Fpp.powi, Fpp.powiNat, Fpp.ADVERTISE_TX_POWER_HIGH_DB,
    Fpp.FSPL_AT_1_METER_DB, Fpp.MEASURED_POWER_AT_1_METER_DB_AT_HIGH_TX_POWER]

-- Mirrors `test_on_ble_scan_result_success` from `presence_detector_test.rs`
-- (clock reads at 0): the second consecutive Reach-zone scan stores the
-- device's estimate.
example :
    (Fpp.PresenceDetector.new.on_ble_scan_result
      ⟨1234, Fpp.MaybeTxPower.Invalid, -40, 123456⟩ 0 0).map Prod.fst = some none := by
  norm_num [Fpp.PresenceDetector.new, Fpp.PresenceDetector.on_ble_scan_result,
    Fpp.RangingUpdateTime.is_expired, checkedSub, Fpp.MAX_RSSI_FILTER_VALUE,
    Fpp.DEFAULT_ESTIMATED_DISTANCE_DATA_TTL_MILLIS, Fpp.DEFAULT_CONSECUTIVE_SCANS_REQUIRED,
    Fpp.compute_distance_meters_at_high_tx_power, Fpp.compute_distance_meters,
    Fpp.ble_fspl_to_meters, Fpp.powi, Fpp.powiNat, Fpp.ADVERTISE_TX_POWER_HIGH_DB,
    Fpp.FSPL_AT_1_METER_DB, Fpp.MEASURED_POWER_AT_1_METER_DB_AT_HIGH_TX_POWER,
    Fpp.get_proximity_state_from_threshold, Fpp.DEFAULT_TAP_DISTANCE_THRESHOLD_METERS,
    Fpp.DEFAULT_REACH_DISTANCE_THRESHOLD_METERS, Fpp.AMBIGUITY_METERS,
    Fpp.mapFind, Fpp.mapInsert, List.dedup_cons_of_mem, List.dedup_cons_of_not_mem,
    List.dedup_nil]

namespace FppLegacy

/-! ## `src/presence/fpp/src/fused_presence_utils.rs` (options and the
estimate type used by `device_proximity_data.rs` / `proximity_estimator.rs` /
`proximity_state_detector.rs`).

The enums `ProximityState`, `MeasurementConfidence` and
`PresenceDataSource` are declared identically in both versions of
`fused_presence_utils.rs`, so the `Fpp` ones are reused here. -/

open Fpp (ProximityState MeasurementConfidence PresenceDataSource)

/-- `ProximityStateOptions`. -/
structure ProximityStateOptions where
  tap_threshold_meters : ℚ
  reach_threshold_meters : ℚ
  short_range_threshold_meters : ℚ
  long_range_threshold_meters : ℚ
  hysteresis_percentage : ℚ
  hysteresis_tap_extra_debounce_meters : ℚ
  consecutive_scans_required : Nat
  deriving DecidableEq, Repr

def DEFAULT_HYSTERESIS_PERCENTAGE : ℚ := 0.2

def DEFAULT_HYSTERESIS_TAP_EXTRA_DEBOUNCE_METERS : ℚ := 0.2

/-- `DEFAULT_PROXIMITY_STATE_OPTIONS`. -/
def DEFAULT_PROXIMITY_STATE_OPTIONS : ProximityStateOptions :=
  { tap_threshold_meters := Fpp.DEFAULT_TAP_DISTANCE_THRESHOLD_METERS
    reach_threshold_meters := Fpp.DEFAULT_REACH_DISTANCE_THRESHOLD_METERS
    short_range_threshold_meters := Fpp.DEFAULT_SHORT_RANGE_DISTANCE_THRESHOLD_METERS
    long_range_threshold_meters := Fpp.DEFAULT_LONG_RANGE_DISTANCE_THRESHOLD_METERS
    hysteresis_percentage := DEFAULT_HYSTERESIS_PERCENTAGE
    hysteresis_tap_extra_debounce_meters := DEFAULT_HYSTERESIS_TAP_EXTRA_DEBOUNCE_METERS
    consecutive_scans_required := Fpp.DEFAULT_CONSECUTIVE_SCANS_REQUIRED }

/-- `ProximityEstimate` (this version has `distance: f64` and
`elapsed_real_time_millis: u128`). -/
structure ProximityEstimate where
  device_id : Nat
  distance : ℚ
  distance_confidence : MeasurementConfidence
  elapsed_real_time_millis : Nat
  source : PresenceDataSource
  deriving DecidableEq, Repr

/-! ## `device_proximity_data.rs` -/

/-- `get_proximity_state_from_threshold` (the five-argument version of
`device_proximity_data.rs`): compare against the thresholds in increasing
order and return the first zone whose threshold is not exceeded, else
`Far`. -/
def get_proximity_state_from_threshold (distance_meters tap_threshold reach_threshold
    short_range_threshold long_range_threshold : ℚ) : ProximityState :=
  if distance_meters ≤ tap_threshold then ProximityState.Tap
  else if distance_meters ≤ reach_threshold then ProximityState.Reach
  else if distance_meters ≤ short_range_threshold then ProximityState.ShortRange
  else if distance_meters ≤ long_range_threshold then ProximityState.LongRange
  else ProximityState.Far

/-- `calculate_proximity_state_hysteresis`: the thresholds start at the
configured values and are then re-assigned per the `match` on the last
reported state, exactly as the sequence of mutations in the source. -/
def calculate_proximity_state_hysteresis (distance_meters : ℚ)
    (last_reported_proximity_state : Option ProximityState)
    (proximity_state_options : ProximityStateOptions) : ProximityState :=
  let enlarge_multiplier := 1 + proximity_state_options.hysteresis_percentage
  let shorten_multiplier := 1 - proximity_state_options.hysteresis_percentage
  let tap_threshold := proximity_state_options.tap_threshold_meters
  let reach_threshold := proximity_state_options.reach_threshold_meters
  let short_range_threshold := proximity_state_options.short_range_threshold_meters
  let long_range_threshold := proximity_state_options.long_range_threshold_meters
  let thresholds : ℚ × ℚ × ℚ × ℚ :=
    match last_reported_proximity_state with
    | some ProximityState.Tap =>
      (tap_threshold * enlarge_multiplier
          + proximity_state_options.hysteresis_tap_extra_debounce_meters,
        reach_threshold, short_range_threshold, long_range_threshold)
    | some ProximityState.Reach =>
      (tap_threshold * shorten_multiplier, reach_threshold * enlarge_multiplier,
        short_range_threshold, long_range_threshold)
    | some ProximityState.ShortRange =>
      (tap_threshold, reach_threshold * shorten_multiplier,
        short_range_threshold * enlarge_multiplier, long_range_threshold)
    | some ProximityState.LongRange =>
      (tap_threshold, reach_threshold,
        short_range_threshold * shorten_multiplier, long_range_threshold * enlarge_multiplier)
    | some ProximityState.Far =>
      (tap_threshold, reach_threshold, short_range_threshold, long_range_threshold)
    | some ProximityState.Unknown =>
      (tap_threshold, reach_threshold, short_range_threshold, long_range_threshold)
    | none =>
      (tap_threshold, reach_threshold, short_range_threshold, long_range_threshold)
  get_proximity_state_from_threshold distance_meters
    thresholds.1 thresholds.2.1 thresholds.2.2.1 thresholds.2.2.2

/-- `DeviceProximityData` (deque fronts are list heads). -/
structure DeviceProximityData where
  device_distance_meters_history : List ℚ
  proximity_state_options : ProximityStateOptions
  transition_history : List ProximityState
  current_proximity_state : ProximityState
  source : PresenceDataSource
  deriving DecidableEq, Repr

/-- `DeviceProximityData::new`. -/
def DeviceProximityData.new (proximity_state_options : Option ProximityStateOptions) :
    DeviceProximityData :=
  let options :=
    match proximity_state_options with
    | some o => o
    | none => DEFAULT_PROXIMITY_STATE_OPTIONS
  { device_distance_meters_history := []
    proximity_state_options := options
    transition_history := []
    current_proximity_state := ProximityState.Unknown
    source := PresenceDataSource.Unknown }

/-- The rebuild loop of `configure_options`: iterate an old deque front to
back, `push_front` each entry into a fresh deque and `truncate` it to the
new `consecutive_scans_required` after each push. -/
def rebuildTruncated {α : Type} (old : List α) (n : Nat) : List α :=
  old.foldl (fun acc h => (h :: acc).take n) []

/-- `DeviceProximityData::configure_options`.  The source stores the new
options, then rebuilds truncated copies of both history deques into the
locals `new_transition_history` / `new_device_distance_meters_history` —
and drops them at the end of the function without assigning them back to
`self`.  The only lasting effect is the options assignment; both stored
histories keep their old entries. -/
def DeviceProximityData.configure_options (d : DeviceProximityData)
    (proximity_state_options : ProximityStateOptions) : DeviceProximityData :=
  let d := { d with proximity_state_options := proximity_state_options }
  let _new_transition_history :=
    rebuildTruncated d.transition_history
      d.proximity_state_options.consecutive_scans_required
  let _new_device_distance_meters_history :=
    rebuildTruncated d.device_distance_meters_history
      d.proximity_state_options.consecutive_scans_required
  d

/-- `DeviceProximityData::update_current_proximity_state`.  Note the guard:
the state (and source) are overwritten as soon as `transition_history` is
full — the source does not require the entries to be identical. -/
def DeviceProximityData.update_current_proximity_state (d : DeviceProximityData)
    (proximity_estimate : ProximityEstimate) : DeviceProximityData :=
  let last_reported_proximity_state := d.current_proximity_state
  let new_proximity_state :=
    calculate_proximity_state_hysteresis proximity_estimate.distance
      (some last_reported_proximity_state) d.proximity_state_options
  let transition_history :=
    (new_proximity_state :: d.transition_history).take
      d.proximity_state_options.consecutive_scans_required
  if transition_history.length = d.proximity_state_options.consecutive_scans_required then
    { d with
        transition_history := transition_history
        current_proximity_state := new_proximity_state
        source := proximity_estimate.source }
  else
    { d with transition_history := transition_history }

end FppLegacy

namespace FppLegacy

/-! ## `proximity_estimator.rs`

Both clock reads in this file are of the form
`SystemTime::now().elapsed().unwrap().as_millis()`: the age of a
`SystemTime` created in the same expression, which is `0` ms in any real
execution (and a panic if the wall clock stepped backwards in between).
The reading is passed as the explicit parameter `elapsedReading`. -/

def DEFAULT_ESTIMATED_DISTANCE_DATA_TTL_MILLIS : Nat := 4000

/-- `ProximityEstimator` state. -/
structure ProximityEstimator where
  estimated_distance_data_ttl_millis : Nat
  best_proximity_estimate_per_device : List (Nat × ProximityEstimate)
  deriving DecidableEq, Repr

/-- `ProximityEstimator::new`. -/
def ProximityEstimator.new : ProximityEstimator :=
  { estimated_distance_data_ttl_millis := DEFAULT_ESTIMATED_DISTANCE_DATA_TTL_MILLIS
    best_proximity_estimate_per_device := [] }

/-- `ProximityEstimator::get_proximity_estimate`.  `elapsedReading` is the
value of `SystemTime::now().elapsed().unwrap().as_millis()` at the head of
the call.  Returns `none` when the `u128` subtraction underflows (program
error), otherwise the returned option and the updated estimator. -/
def ProximityEstimator.get_proximity_estimate (pe : ProximityEstimator)
    (elapsedReading device_id : Nat) :
    Option (Option ProximityEstimate × ProximityEstimator) :=
  match Fpp.mapFind pe.best_proximity_estimate_per_device device_id with
  | none => some (none, pe)
  | some entry =>
    match checkedSub elapsedReading entry.elapsed_real_time_millis with
    | none => none
    | some elapsed_time_since_range_result =>
      if pe.estimated_distance_data_ttl_millis ≤ elapsed_time_since_range_result then
        some (none,
          { pe with
              best_proximity_estimate_per_device :=
                Fpp.mapRemove pe.best_proximity_estimate_per_device device_id })
      else
        some (some entry, pe)

/-! ## `proximity_state_detector.rs` -/

/-- `ProximityStateDetector` state. -/
structure ProximityStateDetector where
  device_proximity_data_map : List (Nat × DeviceProximityData)
  last_range_update_time : Nat
  proximity_state_options : ProximityStateOptions
  deriving DecidableEq, Repr

/-- `ProximityStateDetector::configure_options`: store the new options and
call `DeviceProximityData::configure_options` on every existing per-device
entry. -/
def ProximityStateDetector.configure_options (d : ProximityStateDetector)
    (proximity_state_options : ProximityStateOptions) : ProximityStateDetector :=
  { d with
      proximity_state_options := proximity_state_options
      device_proximity_data_map :=
        d.device_proximity_data_map.map
          (fun p => (p.1, p.2.configure_options proximity_state_options)) }

end FppLegacy

namespace Engine

/-! ## `src/rust/presence/engine/src/client_provider.rs` and
`fused_engine.rs`

`SystemTime` values are modelled as `Nat` (they are only created, stored
and compared for equality by the embedded code). -/

/-- `DiscoveryEngineResult { identity: i32, action: i32, time_stamp: SystemTime }`. -/
structure DiscoveryEngineResult where
  identity : Int
  action : Int
  time_stamp : Nat
  deriving DecidableEq, Repr

/-- The `PartialEq` impl of `DiscoveryEngineResult`: `time_stamp` is
ignored; two results are equal when `identity` and `action` agree. -/
def derEq (a b : DiscoveryEngineResult) : Bool :=
  a.identity = b.identity ∧ a.action = b.action

/-- The `Hash` impl of `DiscoveryEngineResult`: it feeds exactly
`identity` then `action` to the hasher, so the hash input — modelled as
that pair — omits `time_stamp`. -/
def derHash (a : DiscoveryEngineResult) : Int × Int :=
  (a.identity, a.action)

/-- `AlarmEvent { scheduled_time: SystemTime, delay_duration: Duration }`
(duration in milliseconds). -/
structure AlarmEvent where
  scheduled_time : Nat
  delay_duration : Nat
  deriving DecidableEq, Repr

/-- `HashSet<DiscoveryEngineResult>::replace`: inserts the value,
replacing the entry (if any) that is equal under the set's `PartialEq`. -/
def hsReplace (s : List DiscoveryEngineResult) (r : DiscoveryEngineResult) :
    List DiscoveryEngineResult :=
  r :: s.filter (fun x => derEq x r = false)

/-- `HashSet<DiscoveryEngineResult>::remove`: removes the entry (if any)
that is equal under the set's `PartialEq`. -/
def hsRemove (s : List DiscoveryEngineResult) (r : DiscoveryEngineResult) :
    List DiscoveryEngineResult :=
  s.filter (fun x => derEq x r = false)

/-- The loop body of `FusedEngine::process_scan_provider_event` over the
decoded results: for each result whose `action` matches the active
request's `action`, `replace` it into `discovery_results`, send it to the
Client Provider as discovered, and remember its `time_stamp` for the alarm.
Returns (result set, messages sent in order, the remembered timestamp). -/
def processScanLoop (request_action : Int) :
    List DiscoveryEngineResult → List DiscoveryEngineResult → Option Nat →
    List DiscoveryEngineResult →
    List DiscoveryEngineResult × List DiscoveryEngineResult × Option Nat
  | s, sent, ts, [] => (s, sent, ts)
  | s, sent, ts, r :: rest =>
    if r.action = request_action then
      processScanLoop request_action (hsReplace s r) (sent ++ [r]) (some r.time_stamp) rest
    else
      processScanLoop request_action s sent ts rest

/-- `FusedEngine::process_scan_provider_event`, parameterized by the
decoded results produced by `ScanController::process_scan_event` (the
decoder stamps each result with `SystemTime::now()`, passed in here as
part of the decoded data).  Returns the new result set, the discovered
messages sent to the Client Provider, and the `AlarmEvent` armed when at
least one result matched (`delay_duration = ON_LOST_TIMEOUT = 2000` ms). -/
def processScanProviderEvent (request_action : Int)
    (discovery_results : List DiscoveryEngineResult)
    (decoded : List DiscoveryEngineResult) :
    List DiscoveryEngineResult × List DiscoveryEngineResult × Option AlarmEvent :=
  let out := processScanLoop request_action discovery_results [] none decoded
  (out.1, out.2.1,
    match out.2.2 with
    | some t => some { scheduled_time := t, delay_duration := 2000 }
    | none => none)

/-- `FusedEngine::process_timer_provider_event`: every stored result whose
`time_stamp` equals the fired alarm's `scheduled_time` is sent to the
Client Provider as lost (first component, in iteration order) and then
removed from the set via `HashSet::remove` (second component is the
remaining set). -/
def processTimerProviderEvent (discovery_results : List DiscoveryEngineResult)
    (timer_event : AlarmEvent) :
    List DiscoveryEngineResult × List DiscoveryEngineResult :=
  let lost_results :=
    discovery_results.filter (fun r => r.time_stamp = timer_event.scheduled_time)
  (lost_results, lost_results.foldl hsRemove discovery_results)

end Engine

namespace Ffi

/-! ## `fpp_c_ffi` (`lib.rs`, `handle_map.rs`)

The process-wide `HandleMap<Box<PresenceDetector>>` is modelled as an
association list from handles to detector states; `insert`, `remove` and
`get` are its only operations.  The `*mut ProximityEstimate` output
parameter is modelled by a flag saying whether the pointer is null plus an
explicit record of what (if anything) the call wrote through it. -/

/-- `ComputationStatus`. -/
inductive ComputationStatus where
  | Success
  | NoComputedProximityEstimate
  | InvalidPresenceDetectorHandleError
  | NullOutputParameterError
  deriving DecidableEq, Repr

/-- `ComputationStatus::to_status_code`. -/
def ComputationStatus.to_status_code : ComputationStatus → Int
  | ComputationStatus.Success => 1
  | ComputationStatus.NoComputedProximityEstimate => 2
  | ComputationStatus.InvalidPresenceDetectorHandleError => 101
  | ComputationStatus.NullOutputParameterError => 102

/-- `HandleMap::remove`. -/
def handleMapRemove (m : List (Nat × Fpp.PresenceDetector)) (handle : Nat) :
    Option Fpp.PresenceDetector × List (Nat × Fpp.PresenceDetector) :=
  (Fpp.mapFind m handle, Fpp.mapRemove m handle)

/-- FFI `update_ble_scan_result` (clock reads of the inner
`on_ble_scan_result` passed through as in `Fpp.PresenceDetector.on_ble_scan_result`).
Returns `none` on the program-error path, otherwise the status code, what
was written through the output pointer, and the new handle map. -/
def update_ble_scan_result (m : List (Nat × Fpp.PresenceDetector))
    (presence_detector_handle : Nat) (ble_scan_result : Fpp.BleScanResult)
    (outIsNull : Bool) (isExpiredReading nowSinceStart : Nat) :
    Option (Int × Option Fpp.ProximityEstimate × List (Nat × Fpp.PresenceDetector)) :=
  match Fpp.mapFind m presence_detector_handle with
  | some presence_detector =>
    match presence_detector.on_ble_scan_result ble_scan_result isExpiredReading nowSinceStart with
    | none => none
    | some (result, pd') =>
      let m' := Fpp.mapInsert m presence_detector_handle pd'
      match result with
      | some current_proximity_estimate =>
        if outIsNull then
          some (ComputationStatus.NullOutputParameterError.to_status_code, none, m')
        else
          some (ComputationStatus.Success.to_status_code, some current_proximity_estimate, m')
      | none =>
        some (ComputationStatus.NoComputedProximityEstimate.to_status_code, none, m')
  | none =>
    some (ComputationStatus.InvalidPresenceDetectorHandleError.to_status_code, none, m)

/-- FFI `get_proximity_estimate`.  Faithful to the source: when the handle
is found, the result of `presence_detector.get_proximity_estimate(...).map(...)`
— the closure that writes the output parameter and produces a
`Success`/`NullOutputParameterError` status — is discarded (the statement
ends in `;` and nothing is returned from the `if let` arm), and control
falls through to the final `InvalidPresenceDetectorHandleError` status.
The second component records what was written through the output
pointer. -/
def get_proximity_estimate (m : List (Nat × Fpp.PresenceDetector))
    (presence_detector_handle device_id : Nat) (outIsNull : Bool) :
    Int × Option Fpp.ProximityEstimate :=
  match Fpp.mapFind m presence_detector_handle with
  | some presence_detector =>
    let written :=
      match presence_detector.get_proximity_estimate device_id with
      | some current_proximity_estimate =>
        if outIsNull then none else some current_proximity_estimate
      | none => none
    (ComputationStatus.InvalidPresenceDetectorHandleError.to_status_code, written)
  | none =>
    (ComputationStatus.InvalidPresenceDetectorHandleError.to_status_code, none)

/-- FFI `presence_detector_free`: remove the handle's entry, dropping the
boxed detector, `Success` if it was present, otherwise the invalid-handle
status. -/
def presence_detector_free (m : List (Nat × Fpp.PresenceDetector))
    (presence_detector_handle : Nat) : Int × List (Nat × Fpp.PresenceDetector) :=
  match handleMapRemove m presence_detector_handle with
  | (some _, m') => (ComputationStatus.Success.to_status_code, m')
  | (none, _) => (ComputationStatus.InvalidPresenceDetectorHandleError.to_status_code, m)

end Ffi

/-! # Claim theorems -/

namespace Engine

lemma derEq_self (r : DiscoveryEngineResult) : derEq r r = true := by
  simp [derEq]

lemma mem_hsRemove {s : List DiscoveryEngineResult} {l r : DiscoveryEngineResult} :
    r ∈ hsRemove s l ↔ r ∈ s ∧ derEq r l = false := by
  simp [hsRemove, List.mem_filter]

lemma mem_foldl_hsRemove (L : List DiscoveryEngineResult) :
    ∀ (s : List DiscoveryEngineResult) (r : DiscoveryEngineResult),
      r ∈ L.foldl hsRemove s ↔ r ∈ s ∧ ∀ l ∈ L, derEq r l = false := by
  induction L with
  | nil => simp
  | cons l L ih =>
    intro s r
    rw [List.foldl_cons, ih, mem_hsRemove]
    simp [and_assoc, List.forall_mem_cons, and_comm]
    tauto

end Engine

/-- C1: when the Fused Engine processes a timer-fired event, every stored
discovery result whose timestamp equals the fired alarm's `scheduled_time`
is forwarded to the client as lost (first component) and removed from the
result set (second component), and every stored result whose timestamp
differs stays in the set and produces no lost notification.  The
hypothesis `hkeys` is the `HashSet` invariant: at most one stored entry
per `{identity, action}` key. -/
theorem fusedEngine_timer_loss_correlation
    (results : List Engine.DiscoveryEngineResult) (ev : Engine.AlarmEvent)
    (hkeys : ∀ a ∈ results, ∀ b ∈ results, Engine.derEq a b = true → a = b)
    (r : Engine.DiscoveryEngineResult) (hr : r ∈ results) :
    (r.time_stamp = ev.scheduled_time →
      r ∈ (Engine.processTimerProviderEvent results ev).1 ∧
        r ∉ (Engine.processTimerProviderEvent results ev).2) ∧
    (r.time_stamp ≠ ev.scheduled_time →
      r ∉ (Engine.processTimerProviderEvent results ev).1 ∧
        r ∈ (Engine.processTimerProviderEvent results ev).2) := by
  unfold Engine.processTimerProviderEvent
  simp only []
  constructor
  · intro hts
    have hlost : r ∈ results.filter (fun x => x.time_stamp = ev.scheduled_time) := by
      simp [List.mem_filter, hr, hts]
    refine ⟨hlost, ?_⟩
    rw [Engine.mem_foldl_hsRemove]
    intro ⟨_, hall⟩
    have := hall r hlost
    rw [Engine.derEq_self r] at this
    simp at this
  · intro hts
    constructor
    · intro hmem
      rw [List.mem_filter] at hmem
      exact hts (by simpa using hmem.2)
    · rw [Engine.mem_foldl_hsRemove]
      refine ⟨hr, ?_⟩
      intro l hl
      rw [List.mem_filter] at hl
      by_contra hne
      have heq : Engine.derEq r l = true := by
        cases h : Engine.derEq r l with
        | true => rfl
        | false => exact absurd h hne
      have : r = l := hkeys r hr l hl.1 heq
      exact hts (by simpa [this] using hl.2)

/-- C1 witness: a set of two results with distinct keys, one stamped at
the fired alarm's scheduled time (it is lost and removed) and one stamped
later (it stays and is not reported lost). -/
theorem fusedEngine_timer_loss_correlation_witness :
    ((⟨1, 100, 5⟩ : Engine.DiscoveryEngineResult) ∈
        (Engine.processTimerProviderEvent [⟨1, 100, 5⟩, ⟨2, 100, 7⟩] ⟨5, 2000⟩).1 ∧
      (⟨1, 100, 5⟩ : Engine.DiscoveryEngineResult) ∉
        (Engine.processTimerProviderEvent [⟨1, 100, 5⟩, ⟨2, 100, 7⟩] ⟨5, 2000⟩).2) ∧
    ((⟨2, 100, 7⟩ : Engine.DiscoveryEngineResult) ∉
        (Engine.processTimerProviderEvent [⟨1, 100, 5⟩, ⟨2, 100, 7⟩] ⟨5, 2000⟩).1 ∧
      (⟨2, 100, 7⟩ : Engine.DiscoveryEngineResult) ∈
        (Engine.processTimerProviderEvent [⟨1, 100, 5⟩, ⟨2, 100, 7⟩] ⟨5, 2000⟩).2) :=
  ⟨(fusedEngine_timer_loss_correlation [⟨1, 100, 5⟩, ⟨2, 100, 7⟩] ⟨5, 2000⟩
      (by decide) ⟨1, 100, 5⟩ (by decide)).1 (by decide),
    (fusedEngine_timer_loss_correlation [⟨1, 100, 5⟩, ⟨2, 100, 7⟩] ⟨5, 2000⟩
      (by decide) ⟨2, 100, 7⟩ (by decide)).2 (by decide)⟩

namespace Engine

/-- One refresh: a scan event whose decoded payload is the single result
`{identity := i, action := a, time_stamp := t}`, processed against an
active request for action `a` (matching action, so the result is
upserted). -/
def refreshStep (a i : Int) (s : List DiscoveryEngineResult) (t : Nat) :
    List DiscoveryEngineResult :=
  (processScanProviderEvent a s [⟨i, a, t⟩]).1

/-- A sequence of refreshes of the same `{identity, action}` pair with
successive timestamps, starting from result set `s`. -/
def refreshRun (a i : Int) (s : List DiscoveryEngineResult) (stamps : List Nat) :
    List DiscoveryEngineResult :=
  stamps.foldl (refreshStep a i) s

lemma refreshStep_singleton (a i : Int) (t0 t : Nat) :
    refreshStep a i [⟨i, a, t0⟩] t = [⟨i, a, t⟩] := by
  simp [refreshStep, processScanProviderEvent, processScanLoop, hsReplace, derEq]

lemma refreshStep_nil (a i : Int) (t : Nat) :
    refreshStep a i [] t = [⟨i, a, t⟩] := by
  simp [refreshStep, processScanProviderEvent, processScanLoop, hsReplace]

lemma refreshRun_from_singleton (a i : Int) (stamps : List Nat) :
    ∀ (t0 tlast : Nat), refreshRun a i [⟨i, a, t0⟩] (stamps ++ [tlast]) = [⟨i, a, tlast⟩] := by
  induction stamps with
  | nil => intro t0 tlast; simp [refreshRun, refreshStep_singleton]
  | cons t1 rest ih =>
    intro t0 tlast
    show refreshRun a i (refreshStep a i [⟨i, a, t0⟩] t1) (rest ++ [tlast]) = _
    rw [refreshStep_singleton]
    exact ih t1 tlast

end Engine

/-- C5: two `DiscoveryEngineResult` values with identical
`{identity, action}` but (possibly) different timestamps are equal under
the set's `PartialEq` and their `Hash` input is identical, and therefore a
run of `process_scan_provider_event` refreshes — each a scan event
re-decoding the same `{identity, action}` pair with a fresh timestamp,
starting from an empty result set — leaves a result set of size exactly 1
whose stored entry carries the newest (last) timestamp. -/
theorem discoveryResult_dedup_refresh (i a : Int) (t1 t2 : Nat)
    (stamps : List Nat) (tlast : Nat) :
    Engine.derEq ⟨i, a, t1⟩ ⟨i, a, t2⟩ = true ∧
    Engine.derHash ⟨i, a, t1⟩ = Engine.derHash ⟨i, a, t2⟩ ∧
    Engine.refreshRun a i [] (stamps ++ [tlast]) = [⟨i, a, tlast⟩] ∧
    (Engine.refreshRun a i [] (stamps ++ [tlast])).length = 1 := by
  have hrun : Engine.refreshRun a i [] (stamps ++ [tlast]) = [⟨i, a, tlast⟩] := by
    cases stamps with
    | nil => simp [Engine.refreshRun, Engine.refreshStep_nil]
    | cons t0 rest =>
      show Engine.refreshRun a i (Engine.refreshStep a i [] t0) (rest ++ [tlast]) = _
      rw [Engine.refreshStep_nil]
      exact Engine.refreshRun_from_singleton a i rest t0 tlast
  refine ⟨by simp [Engine.derEq], rfl, hrun, by rw [hrun]; rfl⟩

/-- C2 (failing input): with the default options
(`consecutive_scans_required = 2`), a fresh per-device state fed one
Tap-classified sample (distance `0.05` m) followed by one Far-classified
sample (distance `100` m) — i.e. N−1 identical classifications followed by
a different one.  After the second sample the transition history is
`[Far, Tap]`, which is full but *not* all-identical, yet
`update_current_proximity_state` overwrites `current_proximity_state`
(from `Unknown` to `Far`): the source guards the update only by
`transition_history.len() == consecutive_scans_required` and never checks
that the entries are identical. -/
theorem deviceProximityData_updates_without_identical_history :
    (((FppLegacy.DeviceProximityData.new
        (some FppLegacy.DEFAULT_PROXIMITY_STATE_OPTIONS)).update_current_proximity_state
        ⟨9, 1/20, Fpp.MeasurementConfidence.Low, 0, Fpp.PresenceDataSource.Ble⟩).transition_history
      = [Fpp.ProximityState.Tap]) ∧
    (((FppLegacy.DeviceProximityData.new
        (some FppLegacy.DEFAULT_PROXIMITY_STATE_OPTIONS)).update_current_proximity_state
        ⟨9, 1/20, Fpp.MeasurementConfidence.Low, 0, Fpp.PresenceDataSource.Ble⟩).current_proximity_state
      = Fpp.ProximityState.Unknown) ∧
    ((((FppLegacy.DeviceProximityData.new
        (some FppLegacy.DEFAULT_PROXIMITY_STATE_OPTIONS)).update_current_proximity_state
        ⟨9, 1/20, Fpp.MeasurementConfidence.Low, 0, Fpp.PresenceDataSource.Ble⟩).update_current_proximity_state
        ⟨9, 100, Fpp.MeasurementConfidence.Low, 0, Fpp.PresenceDataSource.Ble⟩).transition_history
      = [Fpp.ProximityState.Far, Fpp.ProximityState.Tap]) ∧
    ((((FppLegacy.DeviceProximityData.new
        (some FppLegacy.DEFAULT_PROXIMITY_STATE_OPTIONS)).update_current_proximity_state
        ⟨9, 1/20, Fpp.MeasurementConfidence.Low, 0, Fpp.PresenceDataSource.Ble⟩).update_current_proximity_state
        ⟨9, 100, Fpp.MeasurementConfidence.Low, 0, Fpp.PresenceDataSource.Ble⟩).current_proximity_state
      = Fpp.ProximityState.Far) := by
  norm_num [FppLegacy.DeviceProximityData.new, FppLegacy.DeviceProximityData.update_current_proximity_state,
    FppLegacy.calculate_proximity_state_hysteresis, FppLegacy.get_proximity_state_from_threshold,
    FppLegacy.DEFAULT_PROXIMITY_STATE_OPTIONS, FppLegacy.DEFAULT_HYSTERESIS_PERCENTAGE,
    FppLegacy.DEFAULT_HYSTERESIS_TAP_EXTRA_DEBOUNCE_METERS,
    Fpp.DEFAULT_TAP_DISTANCE_THRESHOLD_METERS, Fpp.DEFAULT_REACH_DISTANCE_THRESHOLD_METERS,
    Fpp.DEFAULT_SHORT_RANGE_DISTANCE_THRESHOLD_METERS,
    Fpp.DEFAULT_LONG_RANGE_DISTANCE_THRESHOLD_METERS, Fpp.AMBIGUITY_METERS,
    Fpp.DEFAULT_CONSECUTIVE_SCANS_REQUIRED]

/-- C3 (failing input): the TTL eviction in
`ProximityEstimator::get_proximity_estimate` is unreachable in any real
execution, and the live crate's `PresenceDetector::get_proximity_estimate`
has no TTL logic at all, so a stored estimate older than the TTL *is*
returned.  Both clock values in `proximity_estimator.rs` are
`SystemTime::now().elapsed().unwrap().as_millis()` — the age of a
`SystemTime` created in the same expression, i.e. `0` ms no matter how
much real time has passed.  Hence an entry is stored with timestamp `0`,
a later query reads the clock as `0`, the computed age is `0 < 4000`, and
the stale estimate is returned with no eviction.  The second conjunct
shows the live crate's accessor is a bare map lookup (its result cannot
depend on elapsed time: the function has no clock input). -/
theorem getProximityEstimate_returns_stale_estimate :
    (FppLegacy.ProximityEstimator.get_proximity_estimate
        { estimated_distance_data_ttl_millis := FppLegacy.DEFAULT_ESTIMATED_DISTANCE_DATA_TTL_MILLIS
          best_proximity_estimate_per_device :=
            [(7, ⟨7, 1, Fpp.MeasurementConfidence.Low, 0, Fpp.PresenceDataSource.Ble⟩)] } 0 7
      = some (some ⟨7, 1, Fpp.MeasurementConfidence.Low, 0, Fpp.PresenceDataSource.Ble⟩,
          { estimated_distance_data_ttl_millis := FppLegacy.DEFAULT_ESTIMATED_DISTANCE_DATA_TTL_MILLIS
            best_proximity_estimate_per_device :=
              [(7, ⟨7, 1, Fpp.MeasurementConfidence.Low, 0, Fpp.PresenceDataSource.Ble⟩)] })) ∧
    (Fpp.PresenceDetector.get_proximity_estimate
        { last_range_update_time := 0
          best_proximity_estimate_per_device :=
            [(7, ⟨7, 1, Fpp.MeasurementConfidence.Low, 0, Fpp.ProximityState.ShortRange,
              Fpp.PresenceDataSource.Ble⟩)]
          transition_history := [] } 7
      = some ⟨7, 1, Fpp.MeasurementConfidence.Low, 0, Fpp.ProximityState.ShortRange,
          Fpp.PresenceDataSource.Ble⟩) := by
  constructor
  · rfl
  · rfl

namespace FppLegacy

open Fpp (ProximityState)

/-- Spec-side definition for C4, following the claim's words: the
threshold *at* the last reported state is enlarged by
`(1 + hysteresis_percentage)` (for Tap additionally enlarged by the fixed
`hysteresis_tap_extra_debounce_meters` margin) and the threshold of the
next *farther* zone is shrunk by `(1 - hysteresis_percentage)`; `Far` has
no threshold of its own and no farther zone, `Unknown` names no zone, and
with no prior reported state the raw thresholds are used unchanged. -/
def calculate_proximity_state_hysteresis_claimed (distance_meters : ℚ)
    (last_reported_proximity_state : Option ProximityState)
    (proximity_state_options : ProximityStateOptions) : ProximityState :=
  let enlarge_multiplier := 1 + proximity_state_options.hysteresis_percentage
  let shorten_multiplier := 1 - proximity_state_options.hysteresis_percentage
  let tap_threshold := proximity_state_options.tap_threshold_meters
  let reach_threshold := proximity_state_options.reach_threshold_meters
  let short_range_threshold := proximity_state_options.short_range_threshold_meters
  let long_range_threshold := proximity_state_options.long_range_threshold_meters
  let thresholds : ℚ × ℚ × ℚ × ℚ :=
    match last_reported_proximity_state with
    | some ProximityState.Tap =>
      (tap_threshold * enlarge_multiplier
          + proximity_state_options.hysteresis_tap_extra_debounce_meters,
        reach_threshold * shorten_multiplier, short_range_threshold, long_range_threshold)
    | some ProximityState.Reach =>
      (tap_threshold, reach_threshold * enlarge_multiplier,
        short_range_threshold * shorten_multiplier, long_range_threshold)
    | some ProximityState.ShortRange =>
      (tap_threshold, reach_threshold,
        short_range_threshold * enlarge_multiplier, long_range_threshold * shorten_multiplier)
    | some ProximityState.LongRange =>
      (tap_threshold, reach_threshold, short_range_threshold,
        long_range_threshold * enlarge_multiplier)
    | some ProximityState.Far =>
      (tap_threshold, reach_threshold, short_range_threshold, long_range_threshold)
    | some ProximityState.Unknown =>
      (tap_threshold, reach_threshold, short_range_threshold, long_range_threshold)
    | none =>
      (tap_threshold, reach_threshold, short_range_threshold, long_range_threshold)
  get_proximity_state_from_threshold distance_meters
    thresholds.1 thresholds.2.1 thresholds.2.2.1 thresholds.2.2.2

/-- Spec-side definition for C4 as amended: the threshold at the last
reported state is enlarged by `(1 + hysteresis_percentage)` (for Tap with
the extra fixed margin) and the threshold of the next *closer* zone is
shrunk by `(1 - hysteresis_percentage)`; a last state of `Far` or
`Unknown` (and the absence of a prior state) leaves every threshold
unchanged. -/
def calculate_proximity_state_hysteresis_amended (distance_meters : ℚ)
    (last_reported_proximity_state : Option ProximityState)
    (proximity_state_options : ProximityStateOptions) : ProximityState :=
  let enlarge_multiplier := 1 + proximity_state_options.hysteresis_percentage
  let shorten_multiplier := 1 - proximity_state_options.hysteresis_percentage
  let tap_threshold := proximity_state_options.tap_threshold_meters
  let reach_threshold := proximity_state_options.reach_threshold_meters
  let short_range_threshold := proximity_state_options.short_range_threshold_meters
  let long_range_threshold := proximity_state_options.long_range_threshold_meters
  let thresholds : ℚ × ℚ × ℚ × ℚ :=
    match last_reported_proximity_state with
    | some ProximityState.Tap =>
      (tap_threshold * enlarge_multiplier
          + proximity_state_options.hysteresis_tap_extra_debounce_meters,
        reach_threshold, short_range_threshold, long_range_threshold)
    | some ProximityState.Reach =>
      (tap_threshold * shorten_multiplier, reach_threshold * enlarge_multiplier,
        short_range_threshold, long_range_threshold)
    | some ProximityState.ShortRange =>
      (tap_threshold, reach_threshold * shorten_multiplier,
        short_range_threshold * enlarge_multiplier, long_range_threshold)
    | some ProximityState.LongRange =>
      (tap_threshold, reach_threshold,
        short_range_threshold * shorten_multiplier, long_range_threshold * enlarge_multiplier)
    | some ProximityState.Far =>
      (tap_threshold, reach_threshold, short_range_threshold, long_range_threshold)
    | some ProximityState.Unknown =>
      (tap_threshold, reach_threshold, short_range_threshold, long_range_threshold)
    | none =>
      (tap_threshold, reach_threshold, short_range_threshold, long_range_threshold)
  get_proximity_state_from_threshold distance_meters
    thresholds.1 thresholds.2.1 thresholds.2.2.1 thresholds.2.2.2

end FppLegacy

/-- C4 counterexample: with thresholds `(1, 2, 4, 8)` m,
`hysteresis_percentage = 1/4`, tap extra margin `1/5` m, last reported
state `Tap` and distance `1.7` m, the code classifies `Reach` (for a last
state of Tap the source only enlarges the Tap threshold; the Reach
threshold — the next farther zone — keeps its raw value 2), while the
claim's biasing (shrink the next farther zone's threshold to `1.5`)
classifies `ShortRange`.  So the claim, as stated, is false of the
code. -/
theorem hysteresis_claimed_biasing_counterexample :
    FppLegacy.calculate_proximity_state_hysteresis (17/10) (some Fpp.ProximityState.Tap)
        ⟨1, 2, 4, 8, 1/4, 1/5, 2⟩ = Fpp.ProximityState.Reach ∧
    FppLegacy.calculate_proximity_state_hysteresis_claimed (17/10) (some Fpp.ProximityState.Tap)
        ⟨1, 2, 4, 8, 1/4, 1/5, 2⟩ = Fpp.ProximityState.ShortRange ∧
    FppLegacy.calculate_proximity_state_hysteresis (17/10) (some Fpp.ProximityState.Tap)
        ⟨1, 2, 4, 8, 1/4, 1/5, 2⟩ ≠
      FppLegacy.calculate_proximity_state_hysteresis_claimed (17/10) (some Fpp.ProximityState.Tap)
        ⟨1, 2, 4, 8, 1/4, 1/5, 2⟩ := by
  norm_num [FppLegacy.calculate_proximity_state_hysteresis,
    FppLegacy.calculate_proximity_state_hysteresis_claimed,
    FppLegacy.get_proximity_state_from_threshold]
  decide

/-- C4 as amended: for every distance, last reported state and options,
`calculate_proximity_state_hysteresis` compares the distance against the
biased thresholds in increasing order (Tap, Reach, ShortRange, LongRange,
else Far), where the threshold at the last reported state is enlarged by
`(1 + hysteresis_percentage)` (for Tap additionally by the fixed
`hysteresis_tap_extra_debounce_meters` margin) and the threshold of the
next *closer* zone is shrunk by `(1 - hysteresis_percentage)`; a last
state of `Far` or `Unknown`, or no prior reported state, uses the raw
configured thresholds unchanged. -/
theorem hysteresis_biases_own_and_next_closer_zone (distance_meters : ℚ)
    (last : Option Fpp.ProximityState) (opts : FppLegacy.ProximityStateOptions) :
    FppLegacy.calculate_proximity_state_hysteresis distance_meters last opts =
      FppLegacy.calculate_proximity_state_hysteresis_amended distance_meters last opts := by
  cases last with
  | none => rfl
  | some s => cases s <;> rfl

/-- C6 (failing input): the distance computed by the Distance Converter is
*not* strictly decreasing in rssi.  The exponent
`(fspl - FSPL_AT_1_METER_DB) / 20` is an `i32` division, so the distance
is constant on whole 20-dB bands: `rssi = -60` and `rssi = -61` both give
exactly `1.0` m, violating `distance(rssi1) < distance(rssi2)` at
`rssi1 = -60 > rssi2 = -61`.  (The first three conjuncts re-check the
fixed reference points of `fspl_converter_test.rs`, confirming the
embedding; equality of the two `f64` results in Rust is exact, since both
calls evaluate `powi` at the same exponent `0`.) -/
theorem fsplConverter_not_strictly_monotone :
    Fpp.compute_distance_meters_at_high_tx_power (-40) = 1/10 ∧
    Fpp.compute_distance_meters_at_high_tx_power (-60) = 1 ∧
    Fpp.compute_distance_meters_at_high_tx_power (-80) = 10 ∧
    Fpp.compute_distance_meters_at_high_tx_power (-61) = 1 ∧
    ¬ (Fpp.compute_distance_meters_at_high_tx_power (-60) <
        Fpp.compute_distance_meters_at_high_tx_power (-61)) := by
  norm_num [Fpp.compute_distance_meters_at_high_tx_power, Fpp.compute_distance_meters,
    Fpp.ble_fspl_to_meters, Fpp.powi, Fpp.powiNat, Fpp.ADVERTISE_TX_POWER_HIGH_DB,
    Fpp.FSPL_AT_1_METER_DB, Fpp.MEASURED_POWER_AT_1_METER_DB_AT_HIGH_TX_POWER]

/-- C7 (failing input): `PresenceDetector` owns a *single*
`transition_history` shared by all devices, so processing a scan sample
for device A changes device B's debounce state.  Device B (id 1, rssi
−40 → Reach zone) fed twice in a row acquires a stored best estimate; the
same two B samples with one device-A sample (id 2, rssi −60 → ShortRange
zone) interleaved leave B with no stored estimate, because A's
classification entered the shared history and broke the
consecutive-identical run.  The last two conjuncts show A's call itself
rewrites the history that B's samples had filled.  (All clock reads at
`0`/small values: no TTL clear and no underflow occurs in these runs.) -/
theorem presenceDetector_history_shared_across_devices :
    ((Fpp.PresenceDetector.new.runScans
        [(⟨1, Fpp.MaybeTxPower.Invalid, -40, 100⟩, 0, 10),
          (⟨1, Fpp.MaybeTxPower.Invalid, -40, 100⟩, 0, 20)]).map
        (fun st => (st.get_proximity_estimate 1).isSome) = some true) ∧
    ((Fpp.PresenceDetector.new.runScans
        [(⟨1, Fpp.MaybeTxPower.Invalid, -40, 100⟩, 0, 10),
          (⟨2, Fpp.MaybeTxPower.Invalid, -60, 100⟩, 0, 20),
          (⟨1, Fpp.MaybeTxPower.Invalid, -40, 100⟩, 0, 30)]).map
        (fun st => (st.get_proximity_estimate 1).isSome) = some false) ∧
    ((Fpp.PresenceDetector.new.runScans
        [(⟨1, Fpp.MaybeTxPower.Invalid, -40, 100⟩, 0, 10)]).map
        Fpp.PresenceDetector.transition_history = some [Fpp.ProximityState.Reach]) ∧
    ((Fpp.PresenceDetector.new.runScans
        [(⟨1, Fpp.MaybeTxPower.Invalid, -40, 100⟩, 0, 10),
          (⟨2, Fpp.MaybeTxPower.Invalid, -60, 100⟩, 0, 20)]).map
        Fpp.PresenceDetector.transition_history =
      some [Fpp.ProximityState.ShortRange, Fpp.ProximityState.Reach]) := by
  have hReach : Fpp.get_proximity_state_from_threshold
      (Fpp.compute_distance_meters_at_high_tx_power (-40)) = Fpp.ProximityState.Reach := by
    norm_num [Fpp.compute_distance_meters_at_high_tx_power, Fpp.compute_distance_meters,
      Fpp.ble_fspl_to_meters, Fpp.powi, Fpp.powiNat, Fpp.ADVERTISE_TX_POWER_HIGH_DB,
      Fpp.FSPL_AT_1_METER_DB, Fpp.MEASURED_POWER_AT_1_METER_DB_AT_HIGH_TX_POWER,
      Fpp.get_proximity_state_from_threshold, Fpp.DEFAULT_TAP_DISTANCE_THRESHOLD_METERS,
      Fpp.DEFAULT_REACH_DISTANCE_THRESHOLD_METERS, Fpp.AMBIGUITY_METERS]
  have hShort : Fpp.get_proximity_state_from_threshold
      (Fpp.compute_distance_meters_at_high_tx_power (-60)) = Fpp.ProximityState.ShortRange := by
    norm_num [Fpp.compute_distance_meters_at_high_tx_power, Fpp.compute_distance_meters,
      Fpp.ble_fspl_to_meters, Fpp.powi, Fpp.powiNat, Fpp.ADVERTISE_TX_POWER_HIGH_DB,
      Fpp.FSPL_AT_1_METER_DB, Fpp.MEASURED_POWER_AT_1_METER_DB_AT_HIGH_TX_POWER,
      Fpp.get_proximity_state_from_threshold, Fpp.DEFAULT_TAP_DISTANCE_THRESHOLD_METERS,
      Fpp.DEFAULT_REACH_DISTANCE_THRESHOLD_METERS, Fpp.DEFAULT_SHORT_RANGE_DISTANCE_THRESHOLD_METERS,
      Fpp.AMBIGUITY_METERS]
  simp +decide [Fpp.PresenceDetector.new, Fpp.PresenceDetector.runScans,
    Fpp.PresenceDetector.on_ble_scan_result, Fpp.PresenceDetector.get_proximity_estimate,
    Fpp.RangingUpdateTime.is_expired, checkedSub, Fpp.MAX_RSSI_FILTER_VALUE,
    Fpp.DEFAULT_ESTIMATED_DISTANCE_DATA_TTL_MILLIS, Fpp.DEFAULT_CONSECUTIVE_SCANS_REQUIRED,
    hReach, hShort, Fpp.mapFind, Fpp.mapInsert,
    List.dedup_cons_of_mem, List.dedup_cons_of_not_mem, List.dedup_nil]

/-- C8 (failing input): `configure_options` does not truncate (or touch)
the stored histories.  A per-device state with transition history
`[Reach, Tap]` (capacity derived from `consecutive_scans_required = 2`)
reconfigured to `consecutive_scans_required = 1` stores the new options —
and `ProximityStateDetector::configure_options` does reach every
per-device entry — but the stored `transition_history` still holds both
old entries instead of being truncated to the most recent one: the source
builds the truncated copies into locals and drops them.  The fourth
conjunct shows that even the dropped local would have kept the *oldest*
entry (`[Tap]`), not the most recent one (`[Reach]`), because the rebuild
loop iterates most-recent-first and pushes to the front. -/
theorem configureOptions_leaves_history_untouched :
    ((FppLegacy.DeviceProximityData.mk []
        FppLegacy.DEFAULT_PROXIMITY_STATE_OPTIONS
        [Fpp.ProximityState.Reach, Fpp.ProximityState.Tap]
        Fpp.ProximityState.Reach Fpp.PresenceDataSource.Ble).configure_options
        ⟨1, 2, 4, 8, 1/4, 1/5, 1⟩).proximity_state_options = ⟨1, 2, 4, 8, 1/4, 1/5, 1⟩ ∧
    ((FppLegacy.DeviceProximityData.mk []
        FppLegacy.DEFAULT_PROXIMITY_STATE_OPTIONS
        [Fpp.ProximityState.Reach, Fpp.ProximityState.Tap]
        Fpp.ProximityState.Reach Fpp.PresenceDataSource.Ble).configure_options
        ⟨1, 2, 4, 8, 1/4, 1/5, 1⟩).transition_history =
      [Fpp.ProximityState.Reach, Fpp.ProximityState.Tap] ∧
    [Fpp.ProximityState.Reach, Fpp.ProximityState.Tap].take 1 = [Fpp.ProximityState.Reach] ∧
    ((FppLegacy.DeviceProximityData.mk []
        FppLegacy.DEFAULT_PROXIMITY_STATE_OPTIONS
        [Fpp.ProximityState.Reach, Fpp.ProximityState.Tap]
        Fpp.ProximityState.Reach Fpp.PresenceDataSource.Ble).configure_options
        ⟨1, 2, 4, 8, 1/4, 1/5, 1⟩).transition_history ≠ [Fpp.ProximityState.Reach] ∧
    FppLegacy.rebuildTruncated [Fpp.ProximityState.Reach, Fpp.ProximityState.Tap] 1 =
      [Fpp.ProximityState.Tap] ∧
    (FppLegacy.ProximityStateDetector.configure_options
        ⟨[(1, FppLegacy.DeviceProximityData.mk []
            FppLegacy.DEFAULT_PROXIMITY_STATE_OPTIONS
            [Fpp.ProximityState.Reach, Fpp.ProximityState.Tap]
            Fpp.ProximityState.Reach Fpp.PresenceDataSource.Ble)], 0,
          FppLegacy.DEFAULT_PROXIMITY_STATE_OPTIONS⟩
        ⟨1, 2, 4, 8, 1/4, 1/5, 1⟩).device_proximity_data_map =
      [(1, (FppLegacy.DeviceProximityData.mk []
          FppLegacy.DEFAULT_PROXIMITY_STATE_OPTIONS
          [Fpp.ProximityState.Reach, Fpp.ProximityState.Tap]
          Fpp.ProximityState.Reach Fpp.PresenceDataSource.Ble).configure_options
          ⟨1, 2, 4, 8, 1/4, 1/5, 1⟩)] := by
  refine ⟨rfl, rfl, rfl, ?_, rfl, rfl⟩
  simp [FppLegacy.DeviceProximityData.configure_options]

/-- C9 (failing input): the FFI `get_proximity_estimate` returns the
invalid-handle status code (101) even for a handle that *is* present in
the registry: with handle 5 live and holding an estimate for device 7 and
a non-null output pointer, the call writes the estimate through the
pointer but still returns 101, because the source discards the status
produced by the `.map(...)` closure and falls through to the
invalid-handle return.  The remaining conjuncts show the other two
operations do follow the claimed contract: `presence_detector_free`
returns success (1) once and the invalid-handle status (101) on a second
free of the same handle, and `update_ble_scan_result` returns a
non-invalid status (2, no computed estimate) on the live handle and 101
on an unknown one. -/
theorem ffi_get_proximity_estimate_live_handle_invalid_status :
    Ffi.get_proximity_estimate
        [(5, ⟨0, [(7, ⟨7, 1, Fpp.MeasurementConfidence.Low, 0, Fpp.ProximityState.ShortRange,
          Fpp.PresenceDataSource.Ble⟩)], [Fpp.ProximityState.Reach]⟩)] 5 7 false =
      (101, some ⟨7, 1, Fpp.MeasurementConfidence.Low, 0, Fpp.ProximityState.ShortRange,
        Fpp.PresenceDataSource.Ble⟩) ∧
    (Ffi.presence_detector_free
        [(5, ⟨0, [(7, ⟨7, 1, Fpp.MeasurementConfidence.Low, 0, Fpp.ProximityState.ShortRange,
          Fpp.PresenceDataSource.Ble⟩)], [Fpp.ProximityState.Reach]⟩)] 5).1 = 1 ∧
    (Ffi.presence_detector_free
        [(5, ⟨0, [(7, ⟨7, 1, Fpp.MeasurementConfidence.Low, 0, Fpp.ProximityState.ShortRange,
          Fpp.PresenceDataSource.Ble⟩)], [Fpp.ProximityState.Reach]⟩)] 5).2 = [] ∧
    (Ffi.presence_detector_free
        ((Ffi.presence_detector_free
          [(5, ⟨0, [(7, ⟨7, 1, Fpp.MeasurementConfidence.Low, 0, Fpp.ProximityState.ShortRange,
            Fpp.PresenceDataSource.Ble⟩)], [Fpp.ProximityState.Reach]⟩)] 5).2) 5).1 = 101 ∧
    (Ffi.update_ble_scan_result
        [(5, ⟨0, [(7, ⟨7, 1, Fpp.MeasurementConfidence.Low, 0, Fpp.ProximityState.ShortRange,
          Fpp.PresenceDataSource.Ble⟩)], [Fpp.ProximityState.Reach]⟩)] 5
        ⟨9, Fpp.MaybeTxPower.Invalid, 127, 0⟩ false 0 0).map (fun out => out.1) = some 2 ∧
    (Ffi.update_ble_scan_result [] 5
        ⟨9, Fpp.MaybeTxPower.Invalid, 127, 0⟩ false 0 0).map (fun out => out.1) = some 101 := by
  refine ⟨rfl, rfl, rfl, rfl, rfl, rfl⟩

/-- C10 (failing input): `on_ble_scan_result` has a reachable `u128`
underflow.  `RangingUpdateTime::is_expired` computes
`Instant::now().elapsed().as_millis() - self.0`, and
`Instant::now().elapsed()` is the age of an `Instant` created in the same
expression — `0` ms in any real execution — while `self.0` holds
`duration_since(start_time)` of the last stored update.  Three scans of
device 1 (rssi −40, Reach zone) at 5000/5100/5200 ms after detector
creation, with the `is_expired` reading at its real value `0`: the first
two calls succeed and the second stores a best estimate, setting
`last_range_update_time = 5100`; the third call's subtraction `0 - 5100`
underflows — the program-error (`none`) outcome — so the claim that the
reading at check time is always ≥ the stored last-update time fails as
soon as a best estimate has been stored at any positive offset from
detector creation. -/
theorem presenceDetector_is_expired_underflows_after_store :
    ((Fpp.PresenceDetector.new.runScans
        [(⟨1, Fpp.MaybeTxPower.Invalid, -40, 100⟩, 0, 5000),
          (⟨1, Fpp.MaybeTxPower.Invalid, -40, 100⟩, 0, 5100)]).map
        Fpp.PresenceDetector.last_range_update_time = some 5100) ∧
    Fpp.PresenceDetector.new.runScans
        [(⟨1, Fpp.MaybeTxPower.Invalid, -40, 100⟩, 0, 5000),
          (⟨1, Fpp.MaybeTxPower.Invalid, -40, 100⟩, 0, 5100),
          (⟨1, Fpp.MaybeTxPower.Invalid, -40, 100⟩, 0, 5200)] = none := by
  have hReach1 : Fpp.get_proximity_state_from_threshold
      (Fpp.compute_distance_meters_at_high_tx_power (-40)) = Fpp.ProximityState.Reach := by
    norm_num [Fpp.compute_distance_meters_at_high_tx_power, Fpp.compute_distance_meters,
      Fpp.ble_fspl_to_meters, Fpp.powi, Fpp.powiNat, Fpp.ADVERTISE_TX_POWER_HIGH_DB,
      Fpp.FSPL_AT_1_METER_DB, Fpp.MEASURED_POWER_AT_1_METER_DB_AT_HIGH_TX_POWER,
      Fpp.get_proximity_state_from_threshold, Fpp.DEFAULT_TAP_DISTANCE_THRESHOLD_METERS,
      Fpp.DEFAULT_REACH_DISTANCE_THRESHOLD_METERS, Fpp.AMBIGUITY_METERS]
  simp +decide [Fpp.PresenceDetector.new, Fpp.PresenceDetector.runScans,
    Fpp.PresenceDetector.on_ble_scan_result, Fpp.RangingUpdateTime.is_expired, checkedSub,
    Fpp.MAX_RSSI_FILTER_VALUE, Fpp.DEFAULT_ESTIMATED_DISTANCE_DATA_TTL_MILLIS,
    Fpp.DEFAULT_CONSECUTIVE_SCANS_REQUIRED, hReach1, Fpp.mapFind, Fpp.mapInsert,
    List.dedup_cons_of_mem, List.dedup_cons_of_not_mem, List.dedup_nil]
